import Mathlib

/-!
Shallow embedding of the Road-Damage-Detection (RoadGuard AI) front-end core:
the in-memory report store (`src/hooks/useReports.ts`), the AI client
(`src/services/aiService.ts`), the submission flow (`ReportPothole.tsx`),
the report card status handler (`ReportCard.tsx`), the authority panel
handlers (`AuthorityPanel.tsx`), the dashboard sort (`Dashboard.tsx`) and
the analytics aggregation (`Analytics.tsx`).

Timestamps are epoch milliseconds: `Date` values become integers
(`Date.now()` is a natural number supplied explicitly to the operations
that read the clock).  JavaScript numbers used by this code are modelled
as rationals (`ℚ`) for fractional quantities and integers where the code
only ever produces integers.
-/

/-- The `severity` union type from `src/types.ts`. -/
inductive Severity where
  | low
  | medium
  | high
  | critical
deriving DecidableEq, Repr

/-- The `status` union type from `src/types.ts`. -/
inductive Status where
  | pending
  | inProgress
  | resolved
  | rejected
deriving DecidableEq, Repr

/-- The `coordinates` object `{lat, lng}` from `src/types.ts`. -/
structure Coordinates where
  lat : ℚ
  lng : ℚ
deriving DecidableEq, Repr

/-- The `dimensions` object `{width, depth, length}` of an attached analysis. -/
structure AiDims where
  width : ℚ
  depth : ℚ
  length : ℚ
deriving DecidableEq, Repr

/-- The `aiAnalysis` summary embedded in a report (`src/types.ts`). -/
structure AiSummary where
  confidence : ℚ
  dimensions : AiDims
  riskLevel : String
deriving DecidableEq, Repr

/-- The `PotholeReport` from `src/types.ts`.  `reportedAt`/`resolvedAt` are
epoch-millisecond integers standing for the `Date` objects. -/
structure PotholeReport where
  id : String
  location : String
  coordinates : Coordinates
  severity : Severity
  status : Status
  reportedAt : ℤ
  reportedBy : String
  description : String
  imageUrl : Option String
  aiAnalysis : Option AiSummary
  priority : ℤ
  assignedTo : Option String
  resolvedAt : Option ℤ
deriving DecidableEq, Repr

/-- A `Partial<PotholeReport>` object literal: each field is present
(`some`) or absent (`none`).  Object spread `{...report, ...updates}`
overwrites exactly the present fields. -/
structure ReportPatch where
  id : Option String := none
  location : Option String := none
  coordinates : Option Coordinates := none
  severity : Option Severity := none
  status : Option Status := none
  reportedAt : Option ℤ := none
  reportedBy : Option String := none
  description : Option String := none
  imageUrl : Option String := none
  aiAnalysis : Option AiSummary := none
  priority : Option ℤ := none
  assignedTo : Option String := none
  resolvedAt : Option ℤ := none
deriving DecidableEq, Repr

/-- Object-spread semantics for an optional record field: if the patch
carries the field, it overwrites; otherwise the old value stays. -/
def patchField (p : Option α) (old : Option α) : Option α :=
  match p with
  | some v => some v
  | none => old

/-- The `{ ...report, ...updates }`: fields present in the patch win. -/
def mergeReport (r : PotholeReport) (u : ReportPatch) : PotholeReport where
  id := u.id.getD r.id
  location := u.location.getD r.location
  coordinates := u.coordinates.getD r.coordinates
  severity := u.severity.getD r.severity
  status := u.status.getD r.status
  reportedAt := u.reportedAt.getD r.reportedAt
  reportedBy := u.reportedBy.getD r.reportedBy
  description := u.description.getD r.description
  imageUrl := patchField u.imageUrl r.imageUrl
  aiAnalysis := patchField u.aiAnalysis r.aiAnalysis
  priority := u.priority.getD r.priority
  assignedTo := patchField u.assignedTo r.assignedTo
  resolvedAt := patchField u.resolvedAt r.resolvedAt

/-- The `updateReport` from `useReports.ts`: map over the list, merging the
patch into the report whose `id` matches. -/
def updateReport (rs : List PotholeReport) (i : String) (u : ReportPatch) :
    List PotholeReport :=
  rs.map fun r => if r.id = i then mergeReport r u else r

/-- The `deleteReport` from `useReports.ts`. -/
def deleteReport (rs : List PotholeReport) (i : String) : List PotholeReport :=
  rs.filter fun r => ¬ r.id = i

/-- The `Omit<PotholeReport, 'id' | 'reportedAt'>`: the draft handed to
`addReport`. -/
structure ReportDraft where
  location : String
  coordinates : Coordinates
  severity : Severity
  status : Status
  reportedBy : String
  description : String
  imageUrl : Option String
  aiAnalysis : Option AiSummary
  priority : ℤ
  assignedTo : Option String := none
  resolvedAt : Option ℤ := none
deriving DecidableEq, Repr

/-- The body of `addReport`: `{...report, id: Date.now().toString(),
reportedAt: new Date()}`.  `now` is the clock reading `Date.now()`, a
natural number of epoch milliseconds. -/
def finalizeReport (now : ℕ) (d : ReportDraft) : PotholeReport where
  id := toString now
  location := d.location
  coordinates := d.coordinates
  severity := d.severity
  status := d.status
  reportedAt := (now : ℤ)
  reportedBy := d.reportedBy
  description := d.description
  imageUrl := d.imageUrl
  aiAnalysis := d.aiAnalysis
  priority := d.priority
  assignedTo := d.assignedTo
  resolvedAt := d.resolvedAt

/-- The `addReport` from `useReports.ts`: build the finalized record, prepend
it (`setReports(prev => [newReport, ...prev])`), and return it. -/
def addReport (rs : List PotholeReport) (now : ℕ) (d : ReportDraft) :
    PotholeReport × List PotholeReport :=
  (finalizeReport now d, finalizeReport now d :: rs)

/-- A sequence of `create` calls starting from the empty store: each call
supplies its clock reading and its draft, in call order. -/
def createAll (calls : List (ℕ × ReportDraft)) : List PotholeReport :=
  calls.foldl (fun rs c => (addReport rs c.1 c.2).2) []

/-- A fixed draft used for concrete evaluations. -/
def sampleDraft : ReportDraft where
  location := "Main Street"
  coordinates := { lat := 0, lng := 0 }
  severity := Severity.medium
  status := Status.pending
  reportedBy := "Jane"
  description := "pothole"
  imageUrl := none
  aiAnalysis := none
  priority := 5

/-- The `Math.round(x)` for the rationals this code produces:
`⌊x + 1/2⌋`. -/
def jsRound (q : ℚ) : ℤ :=
  ⌊q + 1 / 2⌋

/-- The `AIAnalysis` interface of `src/services/aiService.ts`. -/
structure AIAnalysis where
  confidence : ℚ
  severity : Severity
  severity_confidence : ℚ
  dimensions : AiDims
  riskLevel : String
  risk_score : ℚ
  priority : ℤ
  area : ℚ
  volume : ℚ
  filename : Option String := none
  file_size : Option ℤ := none
  image_dimensions : Option (ℤ × ℤ) := none
deriving DecidableEq, Repr

/-- One `Math.random()` draw per call site of `getMockAnalysis`, each a
rational in `[0, 1)` supplied by the environment. -/
structure MockRng where
  rSeverity : ℚ
  rRisk : ℚ
  rWidth : ℚ
  rLength : ℚ
  rDepth : ℚ
  rConfidence : ℚ
  rSevConf : ℚ
  rScore : ℚ
  rPriority : ℚ
deriving DecidableEq, Repr

/-- The `severities` array of `getMockAnalysis`. -/
def mockSeverities : List Severity :=
  [Severity.low, Severity.medium, Severity.high, Severity.critical]

/-- The `riskLevels` array of `getMockAnalysis`. -/
def mockRiskLevels : List String :=
  ["Low Risk", "Medium Risk", "High Risk", "Critical Risk"]

/-- The `const width = Math.round(20 + Math.random() * 50)`. -/
def mockWidth (g : MockRng) : ℤ :=
  jsRound (20 + g.rWidth * 50)

/-- The `const length = Math.round(25 + Math.random() * 60)`. -/
def mockLength (g : MockRng) : ℤ :=
  jsRound (25 + g.rLength * 60)

/-- The `const depth = Math.round(3 + Math.random() * 15)`. -/
def mockDepth (g : MockRng) : ℤ :=
  jsRound (3 + g.rDepth * 15)

/-- The `AIService.getMockAnalysis` from `src/services/aiService.ts`, with the
`Math.random()` draws made explicit. -/
def getMockAnalysis (g : MockRng) : AIAnalysis where
  confidence := 3 / 4 + g.rConfidence * (1 / 5)
  severity := mockSeverities.getD (⌊g.rSeverity * 4⌋).toNat Severity.low
  severity_confidence := 4 / 5 + g.rSevConf * (3 / 20)
  dimensions :=
    { width := (mockWidth g : ℚ)
      length := (mockLength g : ℚ)
      depth := (mockDepth g : ℚ) }
  riskLevel := mockRiskLevels.getD (⌊g.rRisk * 4⌋).toNat "Low Risk"
  risk_score := g.rScore
  priority := ⌊1 + g.rPriority * 10⌋
  area := (mockWidth g : ℚ) * (mockLength g : ℚ)
  volume := (mockWidth g : ℚ) * (mockLength g : ℚ) * (mockDepth g : ℚ)
  filename := some "mock_analysis.jpg"
  file_size := some 245760
  image_dimensions := some (800, 600)

/-- How one call to `aiService.analyzePothole` can go: either the HTTP
request itself rejects (with a flag saying whether the rejection is an
axios error, and its error code), or a response body arrives with its
`success` flag, `analysis` object and `message`. -/
inductive AnalyzeOutcome where
  | reject (isAxios : Bool) (code : String)
  | response (success : Bool) (analysis : AIAnalysis) (message : String)
deriving DecidableEq, Repr

/-- The `AIService.analyzePothole` from `src/services/aiService.ts`.  A
non-`success` body throws inside the `try`, and that thrown `Error` is not
an axios error, so the `catch` rethrows the generic message; only an axios
rejection with code `ECONNREFUSED` is answered with a mock analysis. -/
def analyzePothole (o : AnalyzeOutcome) (g : MockRng) : Except String AIAnalysis :=
  match o with
  | AnalyzeOutcome.response true a _ => Except.ok a
  | AnalyzeOutcome.response false _ _ => Except.error "Failed to analyze pothole image"
  | AnalyzeOutcome.reject isAxios code =>
      if isAxios ∧ code = "ECONNREFUSED" then Except.ok (getMockAnalysis g)
      else Except.error "Failed to analyze pothole image"

/-- The form state of `ReportPothole.tsx` at submit time. -/
structure SubmitForm where
  location : String
  description : String
  severity : Severity
  reportedBy : String
  coordinates : Coordinates
deriving DecidableEq, Repr

/-- The conditional chain of `handleSubmit` computing the default
priority from the selected severity. -/
def severityPriority (s : Severity) : ℤ :=
  if s = Severity.critical then 10
  else if s = Severity.high then 8
  else if s = Severity.medium then 5
  else 3

/-- The fallback stock photo URL used when no image was uploaded. -/
def defaultImageUrl : String :=
  "https://images.pexels.com/photos/1051838/pexels-photo-1051838.jpeg?auto=compress&cs=tinysrgb&w=400"

/-- The draft object `handleSubmit` (in `ReportPothole.tsx`) passes to
`onSubmit`: form fields spread, `status: 'pending'`, the image preview or
a stock photo, the trimmed analysis summary if one is available, and the
severity-derived priority. -/
def submitDraft (form : SubmitForm) (imagePreview : String)
    (analysis : Option AIAnalysis) : ReportDraft where
  location := form.location
  coordinates := form.coordinates
  severity := form.severity
  status := Status.pending
  reportedBy := form.reportedBy
  description := form.description
  imageUrl := some (if imagePreview = "" then defaultImageUrl else imagePreview)
  aiAnalysis := analysis.map fun a =>
    { confidence := a.confidence
      dimensions := a.dimensions
      riskLevel := a.riskLevel }
  priority := severityPriority form.severity

/-- The `handleStatusChange` in `ReportCard.tsx`: the patch is
`{status: newStatus}`, plus `resolvedAt: new Date()` exactly when the new
status is `'resolved'`.  `now` is the clock reading. -/
def statusChangePatch (now : ℤ) (newStatus : Status) : ReportPatch :=
  { status := some newStatus
    resolvedAt := if newStatus = Status.resolved then some now else none }

/-- The `handleAssign` in `AuthorityPanel.tsx`: the patch is
`{assignedTo: assignee, status: 'in-progress'}`. -/
def assignPatch (assignee : String) : ReportPatch :=
  { assignedTo := some assignee
    status := some Status.inProgress }

/-- The `handlePriorityChange` in `AuthorityPanel.tsx`: the patch is
`{priority}`. -/
def priorityPatch (p : ℤ) : ReportPatch :=
  { priority := some p }

/-- The comparator order of `Dashboard.tsx`'s `sortedReports`: `a` may
come before `b` when `a` has the higher priority, or equal priority and
the later (or equal) creation time. -/
def dashBefore (a b : PotholeReport) : Prop :=
  b.priority < a.priority ∨ (a.priority = b.priority ∧ b.reportedAt ≤ a.reportedAt)

instance : DecidableRel dashBefore := fun a b => by
  unfold dashBefore
  exact inferInstance

instance : IsTotal PotholeReport dashBefore where
  total a b := by
    unfold dashBefore
    rcases lt_trichotomy a.priority b.priority with h | h | h
    · exact Or.inr (Or.inl h)
    · rcases le_total b.reportedAt a.reportedAt with ht | ht
      · exact Or.inl (Or.inr ⟨h, ht⟩)
      · exact Or.inr (Or.inr ⟨h.symm, ht⟩)
    · exact Or.inl (Or.inl h)

instance : IsTrans PotholeReport dashBefore where
  trans a b c hab hbc := by
    unfold dashBefore at *
    rcases hab with h1 | ⟨h1, t1⟩
    · rcases hbc with h2 | ⟨h2, t2⟩
      · exact Or.inl (h2.trans h1)
      · exact Or.inl (h2 ▸ h1)
    · rcases hbc with h2 | ⟨h2, t2⟩
      · exact Or.inl (h1 ▸ h2)
      · exact Or.inr ⟨h1.trans h2, t2.trans t1⟩

/-- The `Dashboard.tsx`: `[...reports].sort((a, b) => ...)` — a comparison
sort realizing the comparator, modelled by insertion sort over
`dashBefore`. -/
def sortedReports (rs : List PotholeReport) : List PotholeReport :=
  rs.insertionSort dashBefore

/-- Milliseconds per day, the divisor `1000 * 60 * 60 * 24`. -/
def msPerDay : ℚ := 1000 * 60 * 60 * 24

/-- The `Math.floor((r.resolvedAt!.getTime() - r.reportedAt.getTime()) / (1000*60*60*24))`:
whole days between creation and resolution (`resolvedAt!` reads the
timestamp, which the filter guarantees present). -/
def resolutionDays (r : PotholeReport) : ℤ :=
  ⌊(((r.resolvedAt.getD r.reportedAt : ℤ) : ℚ) - (r.reportedAt : ℚ)) / msPerDay⌋

/-- The `resolvedReports` in `Analytics.tsx`: the count of reports with
status `'resolved'`. -/
def resolvedCount (rs : List PotholeReport) : ℕ :=
  (rs.filter fun r => r.status = Status.resolved).length

/-- The `avgResolutionTime` in `Analytics.tsx`: sum the whole-day resolution
spans over reports that are resolved and carry a `resolvedAt`, divide by
the count of resolved reports; `0` when nothing is resolved. -/
def avgResolutionTime (rs : List PotholeReport) : ℚ :=
  if 0 < resolvedCount rs then
    (((rs.filter fun r => r.status = Status.resolved ∧ r.resolvedAt.isSome).map
        fun r => (resolutionDays r : ℚ)).sum) / (resolvedCount rs : ℚ)
  else 0

/-- Modelled from the spec sentence the claim cites: the average
resolution time as "the mean, over reports with status resolved, of
(resolution timestamp minus creation timestamp) expressed in whole days",
`0` when no resolved reports exist. -/
def specAvgResolutionTime (rs : List PotholeReport) : ℚ :=
  if 0 < resolvedCount rs then
    (((rs.filter fun r => r.status = Status.resolved).map
        fun r => (resolutionDays r : ℚ)).sum) / (resolvedCount rs : ℚ)
  else 0

/-- Decimal digit list of a natural number, most significant first: the
fuel-free counterpart of `Nat.toDigits 10`. -/
def natDigits (n : ℕ) : List Char :=
  if n < 10 then [Nat.digitChar n]
  else natDigits (n / 10) ++ [Nat.digitChar (n % 10)]
decreasing_by
  exact Nat.div_lt_self (by omega) (by omega)

theorem natDigits_lt {n : ℕ} (h : n < 10) : natDigits n = [Nat.digitChar n] := by
  rw [natDigits]
  exact if_pos h

theorem natDigits_ge {n : ℕ} (h : ¬ n < 10) :
    natDigits n = natDigits (n / 10) ++ [Nat.digitChar (n % 10)] := by
  rw [natDigits]
  exact if_neg h

theorem natDigits_ne_nil (n : ℕ) : natDigits n ≠ [] := by
  by_cases h : n < 10
  · simp [natDigits_lt h]
  · simp [natDigits_ge h]

theorem toDigitsCore_eq_natDigits :
    ∀ (fuel n : ℕ) (ds : List Char), n < fuel →
      Nat.toDigitsCore 10 fuel n ds = natDigits n ++ ds := by
  intro fuel
  induction fuel with
  | zero => intro n ds h; omega
  | succ f ih =>
    intro n ds h
    by_cases h0 : n / 10 = 0
    · have hn : n < 10 := by omega
      have hm : n % 10 = n := Nat.mod_eq_of_lt hn
      simp only [Nat.toDigitsCore, h0, if_pos]
      rw [natDigits_lt hn, hm]
      rfl
    · have hn : ¬ n < 10 := by omega
      have hf : n / 10 < f := by
        have := Nat.div_lt_self (by omega : 0 < n) (by omega : 1 < 10)
        omega
      simp only [Nat.toDigitsCore, h0, if_neg]
      rw [ih (n / 10) (Nat.digitChar (n % 10) :: ds) hf, natDigits_ge hn]
      simp

theorem toDigits_eq_natDigits (n : ℕ) : Nat.toDigits 10 n = natDigits n := by
  have := toDigitsCore_eq_natDigits (n + 1) n [] (by omega)
  simpa [Nat.toDigits] using this

theorem digitChar_inj_lt :
    ∀ a, a < 10 → ∀ b, b < 10 → Nat.digitChar a = Nat.digitChar b → a = b := by
  decide

theorem natDigits_inj : ∀ m n : ℕ, natDigits m = natDigits n → m = n := by
  intro m
  induction m using Nat.strong_induction_on with
  | _ m ih =>
    intro n h
    by_cases hm : m < 10 <;> by_cases hn : n < 10
    · rw [natDigits_lt hm, natDigits_lt hn] at h
      simp only [List.cons.injEq, and_true] at h
      exact digitChar_inj_lt m hm n hn h
    · rw [natDigits_lt hm, natDigits_ge hn] at h
      have hlen := congrArg List.length h
      have hpos : 0 < (natDigits (n / 10)).length :=
        List.length_pos.mpr (natDigits_ne_nil _)
      simp only [List.length_append, List.length_cons, List.length_nil] at hlen
      omega
    · rw [natDigits_ge hm, natDigits_lt hn] at h
      have hlen := congrArg List.length h
      have hpos : 0 < (natDigits (m / 10)).length :=
        List.length_pos.mpr (natDigits_ne_nil _)
      simp only [List.length_append, List.length_cons, List.length_nil] at hlen
      omega
    · rw [natDigits_ge hm, natDigits_ge hn] at h
      have hrev := congrArg List.reverse h
      simp only [List.reverse_append, List.reverse_cons, List.reverse_nil,
        List.nil_append, List.singleton_append, List.cons.injEq] at hrev
      obtain ⟨hchar, htail⟩ := hrev
      have hdiv : m / 10 = n / 10 := by
        have := List.reverse_injective htail
        exact ih (m / 10) (Nat.div_lt_self (by omega) (by omega)) (n / 10) this
      have hmod : m % 10 = n % 10 :=
        digitChar_inj_lt (m % 10) (Nat.mod_lt m (by omega)) (n % 10)
          (Nat.mod_lt n (by omega)) hchar
      omega

theorem natToString_inj {m n : ℕ} (h : toString m = toString n) : m = n := by
  have h1 : (Nat.toDigits 10 m).asString = (Nat.toDigits 10 n).asString := h
  have h2 : Nat.toDigits 10 m = Nat.toDigits 10 n := congrArg String.data h1
  rw [toDigits_eq_natDigits, toDigits_eq_natDigits] at h2
  exact natDigits_inj m n h2

theorem createAll_eq_reverse_map (calls : List (ℕ × ReportDraft)) :
    createAll calls = (calls.map fun c => finalizeReport c.1 c.2).reverse := by
  suffices h : ∀ (l : List (ℕ × ReportDraft)) (acc : List PotholeReport),
      l.foldl (fun rs c => (addReport rs c.1 c.2).2) acc =
        (l.map fun c => finalizeReport c.1 c.2).reverse ++ acc by
    simpa [createAll] using h calls []
  intro l
  induction l with
  | nil => intro acc; simp
  | cons a t iht =>
    intro acc
    rw [List.foldl_cons, iht]
    simp [addReport, List.reverse_cons, List.append_assoc]

/-- C1 (counterexample to the claim as stated): two `create` calls whose
`Date.now()` readings fall in the same millisecond produce two reports
with the same identifier, so the store's identifiers are not always
unique. -/
theorem C1_counterexample :
    ¬ ((createAll [(5, sampleDraft), (5, sampleDraft)]).map PotholeReport.id).Nodup := by
  decide

/-- C1 (amended): provided successive `create` calls observe strictly
increasing clock readings, every identifier in the resulting store is
unique and the list is in reverse-chronological insertion order; each
individual call prepends the finalized record, whose identifier is the
decimal string of the clock reading and whose creation timestamp is that
reading, and returns it. -/
theorem C1_create_invariants (calls : List (ℕ × ReportDraft))
    (hmono : calls.Pairwise fun a b => a.1 < b.1) :
    ((createAll calls).map PotholeReport.id).Nodup ∧
    ((createAll calls).Pairwise fun a b => b.reportedAt < a.reportedAt) ∧
    ∀ (rs : List PotholeReport) (now : ℕ) (d : ReportDraft),
      (addReport rs now d).2 = (addReport rs now d).1 :: rs ∧
      (addReport rs now d).1.id = toString now ∧
      (addReport rs now d).1.reportedAt = (now : ℤ) := by
  rw [createAll_eq_reverse_map]
  refine ⟨?_, ?_, ?_⟩
  · rw [List.map_reverse, List.nodup_reverse, List.map_map]
    show (calls.map (PotholeReport.id ∘ fun c => finalizeReport c.1 c.2)).Pairwise
      fun a b => a ≠ b
    refine hmono.map _ ?_
    intro a b hlt heq
    exact absurd (natToString_inj heq) (Nat.ne_of_lt hlt)
  · rw [List.pairwise_reverse]
    refine hmono.map _ ?_
    intro a b hlt
    show (a.1 : ℤ) < (b.1 : ℤ)
    exact_mod_cast hlt
  · intro rs now d
    exact ⟨rfl, rfl, rfl⟩

/-- C1 witness: the amended statement applied to two calls with strictly
increasing clock readings 1 and 2. -/
theorem C1_witness :
    ((createAll [(1, sampleDraft), (2, sampleDraft)]).map PotholeReport.id).Nodup ∧
    ((createAll [(1, sampleDraft), (2, sampleDraft)]).Pairwise fun a b =>
      b.reportedAt < a.reportedAt) :=
  ⟨(C1_create_invariants [(1, sampleDraft), (2, sampleDraft)] (by decide)).1,
   (C1_create_invariants [(1, sampleDraft), (2, sampleDraft)] (by decide)).2.1⟩

theorem mergeReport_id_of_none {u : ReportPatch} (r : PotholeReport)
    (hid : u.id = none) : (mergeReport r u).id = r.id := by
  simp [mergeReport, hid]

theorem mergeReport_reportedAt_of_none {u : ReportPatch} (r : PotholeReport)
    (hts : u.reportedAt = none) : (mergeReport r u).reportedAt = r.reportedAt := by
  simp [mergeReport, hts]

/-- C3: `update` against an identifier not present in the store is a
silent no-op, and in general `update` maps the collection, merging the
patch into exactly the reports whose identifier matches and leaving all
other reports unchanged in place. -/
theorem C3_update_missing_id_noop (rs : List PotholeReport) (i : String)
    (u : ReportPatch) :
    ((∀ r ∈ rs, r.id ≠ i) → updateReport rs i u = rs) ∧
    updateReport rs i u =
      rs.map fun r => if r.id = i then mergeReport r u else r := by
  refine ⟨?_, rfl⟩
  intro h
  unfold updateReport
  calc rs.map (fun r => if r.id = i then mergeReport r u else r)
      = rs.map id := List.map_congr_left fun r hr => if_neg (h r hr)
    _ = rs := List.map_id rs

/-- A concrete report used in closed evaluations: created at clock
reading 100, so its identifier is `"100"`. -/
def sampleReport : PotholeReport :=
  finalizeReport 100 sampleDraft

/-- C3 witness: updating an identifier absent from a concrete one-report
store changes nothing. -/
theorem C3_witness :
    updateReport [sampleReport] "zzz" (priorityPatch 7) = [sampleReport] :=
  (C3_update_missing_id_noop [sampleReport] "zzz" (priorityPatch 7)).1 (by decide)

/-- C4 (counterexample to the claim as stated): the store's `update`
merges whatever fields the patch carries, `id` and `reportedAt`
included, so an update whose patch carries those fields does alter them
on an existing report. -/
theorem C4_counterexample :
    ((updateReport [sampleReport] "100" { id := some "999" }).map
        PotholeReport.id = ["999"]) ∧
    ((updateReport [sampleReport] "100" { reportedAt := some 7 }).map
        PotholeReport.reportedAt = [7]) ∧
    sampleReport.id = "100" ∧ sampleReport.reportedAt = 100 := by
  decide

/-- C4 (amended): every update whose patch omits `id` and `reportedAt`
leaves both fields of every report unchanged, and every patch the
application's views actually issue (status change, assignment, priority
change) omits them; only a patch that explicitly carries `id` or
`reportedAt` can alter them. -/
theorem C4_id_reportedAt_frame (rs : List PotholeReport) (i : String)
    (u : ReportPatch) (hid : u.id = none) (hts : u.reportedAt = none) :
    ((updateReport rs i u).map fun r => (r.id, r.reportedAt)) =
      (rs.map fun r => (r.id, r.reportedAt)) ∧
    (∀ now st, (statusChangePatch now st).id = none ∧
      (statusChangePatch now st).reportedAt = none) ∧
    (∀ a, (assignPatch a).id = none ∧ (assignPatch a).reportedAt = none) ∧
    (∀ p, (priorityPatch p).id = none ∧ (priorityPatch p).reportedAt = none) := by
  refine ⟨?_, fun now st => ⟨rfl, rfl⟩, fun a => ⟨rfl, rfl⟩, fun p => ⟨rfl, rfl⟩⟩
  unfold updateReport
  rw [List.map_map]
  refine List.map_congr_left ?_
  intro r _
  by_cases h : r.id = i
  · simp only [Function.comp, if_pos h]
    rw [mergeReport_id_of_none r hid, mergeReport_reportedAt_of_none r hts]
  · simp only [Function.comp, if_neg h]

/-- C4 witness: the amended statement applied to a concrete store
and the assignment patch, which omits `id` and `reportedAt`. -/
theorem C4_witness :
    ((updateReport [sampleReport] "100" (assignPatch "Mike Johnson")).map
        fun r => (r.id, r.reportedAt)) =
      ([sampleReport].map fun r => (r.id, r.reportedAt)) :=
  (C4_id_reportedAt_frame [sampleReport] "100" (assignPatch "Mike Johnson")
    rfl rfl).1

/-- C6: the report card's status handler always patches `status` to the
chosen value; exactly when that value is `'resolved'` the same patch also
carries `resolvedAt` set to the current time, and for any other value the
patch leaves `resolvedAt` absent, so merging neither sets nor clears the
report's resolution timestamp. -/
theorem C6_resolved_sets_timestamp (now : ℤ) (st : Status) (r : PotholeReport) :
    (statusChangePatch now st).status = some st ∧
    (st = Status.resolved →
      (mergeReport r (statusChangePatch now st)).resolvedAt = some now ∧
      (mergeReport r (statusChangePatch now st)).status = st) ∧
    (st ≠ Status.resolved →
      (statusChangePatch now st).resolvedAt = none ∧
      (mergeReport r (statusChangePatch now st)).resolvedAt = r.resolvedAt ∧
      (mergeReport r (statusChangePatch now st)).status = st) := by
  refine ⟨rfl, ?_, ?_⟩
  · intro h
    subst h
    exact ⟨rfl, rfl⟩
  · intro h
    refine ⟨?_, ?_, rfl⟩
    · simp [statusChangePatch, h]
    · simp [statusChangePatch, mergeReport, patchField, h]

/-- C6 witness: the handler's patch at a concrete time, for `'resolved'`
(the timestamp is set) and for `'in-progress'` (the report's resolution
timestamp is untouched), applied to a concrete report. -/
theorem C6_witness :
    (mergeReport sampleReport (statusChangePatch 500 Status.resolved)).resolvedAt
        = some 500 ∧
    (mergeReport sampleReport (statusChangePatch 400 Status.inProgress)).resolvedAt
        = sampleReport.resolvedAt :=
  ⟨((C6_resolved_sets_timestamp 500 Status.resolved sampleReport).2.1 rfl).1,
   ((C6_resolved_sets_timestamp 400 Status.inProgress sampleReport).2.2
      (by decide)).2.1⟩

/-- C10: the authority panel's assign handler issues one store update
whose patch sets `assignedTo` to the chosen value (the empty string for
"Unassigned" included) and always sets `status` to `'in-progress'`,
whatever the report's previous status; all other fields of every report
are untouched. -/
theorem C10_assign_forces_in_progress (rs : List PotholeReport) (i : String)
    (a : String) :
    updateReport rs i (assignPatch a) = rs.map fun r =>
      if r.id = i then
        { r with assignedTo := some a, status := Status.inProgress }
      else r := by
  unfold updateReport
  refine List.map_congr_left ?_
  intro r _
  by_cases h : r.id = i
  · rw [if_pos h, if_pos h]
    cases r
    rfl
  · rw [if_neg h, if_neg h]

/-- C2: `analyzePothole` answers with a freshly generated mock analysis
exactly on a connection-refused axios rejection; a success response
yields the service's analysis object; a `success: false` body and every
other rejection (non-axios error, or any axios code other than
`ECONNREFUSED`, e.g. an HTTP 500) surface as the generic analysis-failed
error rather than a mock result. -/
theorem C2_mock_only_on_connection_refused (g : MockRng) (a : AIAnalysis)
    (msg : String) (isAxios : Bool) (code : String) :
    analyzePothole (AnalyzeOutcome.response true a msg) g = Except.ok a ∧
    analyzePothole (AnalyzeOutcome.response false a msg) g =
      Except.error "Failed to analyze pothole image" ∧
    analyzePothole (AnalyzeOutcome.reject true "ECONNREFUSED") g =
      Except.ok (getMockAnalysis g) ∧
    (¬ (isAxios = true ∧ code = "ECONNREFUSED") →
      analyzePothole (AnalyzeOutcome.reject isAxios code) g =
        Except.error "Failed to analyze pothole image") := by
  refine ⟨rfl, rfl, ?_, ?_⟩
  · simp [analyzePothole]
  · intro h
    simp only [analyzePothole]
    rw [if_neg]
    simpa using h

/-- One fixed random draw for closed evaluations of the mock generator. -/
def sampleRng : MockRng where
  rSeverity := 1 / 2
  rRisk := 1 / 2
  rWidth := 1 / 2
  rLength := 1 / 2
  rDepth := 1 / 2
  rConfidence := 1 / 2
  rSevConf := 1 / 2
  rScore := 1 / 2
  rPriority := 1 / 2

/-- C2 witness: an axios rejection coded `ERR_BAD_RESPONSE` (an HTTP 500
surfaced by axios) raises the generic error instead of a mock result. -/
theorem C2_witness :
    analyzePothole (AnalyzeOutcome.reject true "ERR_BAD_RESPONSE") sampleRng =
      Except.error "Failed to analyze pothole image" :=
  (C2_mock_only_on_connection_refused sampleRng (getMockAnalysis sampleRng) ""
    true "ERR_BAD_RESPONSE").2.2.2 (by decide)

theorem floor_between {q : ℚ} {lo hi : ℤ} (h1 : (lo : ℚ) ≤ q)
    (h2 : q < (hi : ℚ) + 1) : lo ≤ ⌊q⌋ ∧ ⌊q⌋ ≤ hi := by
  refine ⟨Int.le_floor.mpr h1, ?_⟩
  have h3 : ⌊q⌋ < hi + 1 := Int.floor_lt.mpr (by push_cast; linarith)
  omega

/-- The conjunction of range and consistency facts the claim asserts of
every mock analysis. -/
def MockWithinSpec (g : MockRng) : Prop :=
  (3 / 4 ≤ (getMockAnalysis g).confidence ∧
    (getMockAnalysis g).confidence ≤ 19 / 20) ∧
  (4 / 5 ≤ (getMockAnalysis g).severity_confidence ∧
    (getMockAnalysis g).severity_confidence ≤ 19 / 20) ∧
  (20 ≤ mockWidth g ∧ mockWidth g ≤ 70) ∧
  (25 ≤ mockLength g ∧ mockLength g ≤ 85) ∧
  (3 ≤ mockDepth g ∧ mockDepth g ≤ 18) ∧
  ((getMockAnalysis g).dimensions.width = (mockWidth g : ℚ) ∧
    (getMockAnalysis g).dimensions.length = (mockLength g : ℚ) ∧
    (getMockAnalysis g).dimensions.depth = (mockDepth g : ℚ)) ∧
  (0 ≤ (getMockAnalysis g).risk_score ∧ (getMockAnalysis g).risk_score ≤ 1) ∧
  (1 ≤ (getMockAnalysis g).priority ∧ (getMockAnalysis g).priority ≤ 10) ∧
  (getMockAnalysis g).area =
    (getMockAnalysis g).dimensions.width * (getMockAnalysis g).dimensions.length ∧
  (getMockAnalysis g).volume =
    (getMockAnalysis g).dimensions.width * (getMockAnalysis g).dimensions.length *
      (getMockAnalysis g).dimensions.depth ∧
  0 < (getMockAnalysis g).area ∧ 0 < (getMockAnalysis g).volume

/-- C7: whenever every `Math.random()` draw lies in `[0, 1)`, the mock
analysis satisfies all the claimed bounds: confidence in [0.75, 0.95],
severity confidence in [0.80, 0.95], width an integer in [20, 70] cm,
length in [25, 85] cm, depth in [3, 18] cm, risk score in [0, 1],
priority an integer in [1, 10], area = width × length and
volume = width × length × depth, both strictly positive. -/
theorem C7_mock_analysis_ranges (g : MockRng)
    (hw : 0 ≤ g.rWidth ∧ g.rWidth < 1) (hl : 0 ≤ g.rLength ∧ g.rLength < 1)
    (hd : 0 ≤ g.rDepth ∧ g.rDepth < 1)
    (hc : 0 ≤ g.rConfidence ∧ g.rConfidence < 1)
    (hs : 0 ≤ g.rSevConf ∧ g.rSevConf < 1)
    (hr : 0 ≤ g.rScore ∧ g.rScore < 1)
    (hp : 0 ≤ g.rPriority ∧ g.rPriority < 1) :
    MockWithinSpec g := by
  obtain ⟨hw0, hw1⟩ := hw
  obtain ⟨hl0, hl1⟩ := hl
  obtain ⟨hd0, hd1⟩ := hd
  obtain ⟨hc0, hc1⟩ := hc
  obtain ⟨hs0, hs1⟩ := hs
  obtain ⟨hr0, hr1⟩ := hr
  obtain ⟨hp0, hp1⟩ := hp
  have hwth : 20 ≤ mockWidth g ∧ mockWidth g ≤ 70 := by
    unfold mockWidth jsRound
    exact floor_between (by push_cast; linarith) (by push_cast; linarith)
  have hlth : 25 ≤ mockLength g ∧ mockLength g ≤ 85 := by
    unfold mockLength jsRound
    exact floor_between (by push_cast; linarith) (by push_cast; linarith)
  have hdth : 3 ≤ mockDepth g ∧ mockDepth g ≤ 18 := by
    unfold mockDepth jsRound
    exact floor_between (by push_cast; linarith) (by push_cast; linarith)
  have hwq : (20 : ℚ) ≤ (mockWidth g : ℚ) := by exact_mod_cast hwth.1
  have hlq : (25 : ℚ) ≤ (mockLength g : ℚ) := by exact_mod_cast hlth.1
  have hdq : (3 : ℚ) ≤ (mockDepth g : ℚ) := by exact_mod_cast hdth.1
  refine ⟨⟨?_, ?_⟩, ⟨?_, ?_⟩, hwth, hlth, hdth, ⟨rfl, rfl, rfl⟩,
    ⟨hr0, le_of_lt hr1⟩, ?_, rfl, rfl, ?_, ?_⟩
  · show (3 : ℚ) / 4 ≤ 3 / 4 + g.rConfidence * (1 / 5)
    linarith
  · show (3 : ℚ) / 4 + g.rConfidence * (1 / 5) ≤ 19 / 20
    linarith
  · show (4 : ℚ) / 5 ≤ 4 / 5 + g.rSevConf * (3 / 20)
    linarith
  · show (4 : ℚ) / 5 + g.rSevConf * (3 / 20) ≤ 19 / 20
    linarith
  · show 1 ≤ ⌊1 + g.rPriority * 10⌋ ∧ ⌊1 + g.rPriority * 10⌋ ≤ 10
    exact floor_between (by push_cast; linarith) (by push_cast; linarith)
  · show (0 : ℚ) < (mockWidth g : ℚ) * (mockLength g : ℚ)
    exact mul_pos (by linarith) (by linarith)
  · show (0 : ℚ) < (mockWidth g : ℚ) * (mockLength g : ℚ) * (mockDepth g : ℚ)
    exact mul_pos (mul_pos (by linarith) (by linarith)) (by linarith)

/-- C7 witness: all the claimed ranges hold of the mock analysis drawn
with every `Math.random()` draw equal to 1/2. -/
theorem C7_witness : MockWithinSpec sampleRng :=
  C7_mock_analysis_ranges sampleRng (by norm_num [sampleRng])
    (by norm_num [sampleRng]) (by norm_num [sampleRng]) (by norm_num [sampleRng])
    (by norm_num [sampleRng]) (by norm_num [sampleRng]) (by norm_num [sampleRng])

/-- C8: every draft assembled by the submission flow's `handleSubmit`
carries status `'pending'` and the severity-default priority, and the
defaults are critical → 10, high → 8, medium → 5, low → 3. -/
theorem C8_submit_priority_defaults (form : SubmitForm) (imagePreview : String)
    (analysis : Option AIAnalysis) :
    (submitDraft form imagePreview analysis).status = Status.pending ∧
    (submitDraft form imagePreview analysis).priority =
      severityPriority form.severity ∧
    severityPriority Severity.critical = 10 ∧
    severityPriority Severity.high = 8 ∧
    severityPriority Severity.medium = 5 ∧
    severityPriority Severity.low = 3 := by
  refine ⟨rfl, rfl, rfl, rfl, rfl, ?_⟩
  decide

/-- A concrete report for the dashboard-sort example: only the identifier,
priority and creation time vary. -/
def mkDashReport (i : String) (p : ℤ) (t : ℤ) : PotholeReport where
  id := i
  location := "somewhere"
  coordinates := { lat := 0, lng := 0 }
  severity := Severity.medium
  status := Status.pending
  reportedAt := t
  reportedBy := "Jane"
  description := "pothole"
  imageUrl := none
  aiAnalysis := none
  priority := p
  assignedTo := none
  resolvedAt := none

/-- C9: the dashboard's sorted list is a permutation of the store ordered
by the comparator (priority descending, ties by creation time
descending); on the spec's example — priorities [3, 8, 8, 5] with
distinct creation times — the two priority-8 reports come first,
most-recent-first between themselves, then the priority-5, then the
priority-3 report. -/
theorem C9_dashboard_sort_order :
    (∀ rs : List PotholeReport,
      (sortedReports rs).Perm rs ∧ (sortedReports rs).Sorted dashBefore) ∧
    sortedReports
        [mkDashReport "a" 3 100, mkDashReport "b" 8 200,
         mkDashReport "c" 8 300, mkDashReport "d" 5 400] =
      [mkDashReport "c" 8 300, mkDashReport "b" 8 200,
       mkDashReport "d" 5 400, mkDashReport "a" 3 100] := by
  constructor
  · intro rs
    exact ⟨List.perm_insertionSort dashBefore rs,
      List.sorted_insertionSort dashBefore rs⟩
  · decide

/-- C5: whenever every resolved report carries a resolution timestamp (as
the resolution-handling path guarantees), the Analytics view's average
resolution time equals the mean, over reports with status resolved, of
the whole-day difference between resolution and creation timestamps; and
it equals 0 when no resolved reports exist. -/
theorem C5_avg_resolution_time (rs : List PotholeReport)
    (h : ∀ r ∈ rs, r.status = Status.resolved → r.resolvedAt.isSome) :
    avgResolutionTime rs = specAvgResolutionTime rs ∧
    (resolvedCount rs = 0 → avgResolutionTime rs = 0) := by
  constructor
  · unfold avgResolutionTime specAvgResolutionTime
    have hfil : (rs.filter fun r =>
          decide (r.status = Status.resolved ∧ r.resolvedAt.isSome = true)) =
        rs.filter fun r => decide (r.status = Status.resolved) := by
      apply List.filter_congr
      intro r hr
      by_cases hs : r.status = Status.resolved
      · simp [hs, h r hr hs]
      · simp [hs]
    simp only [hfil]
  · intro h0
    unfold avgResolutionTime
    rw [if_neg]
    omega

/-- A concrete resolved report: created at time 100, resolved
`2 * msPerDay` later, so its whole-day resolution span is 2. -/
def resolvedSample : PotholeReport :=
  { sampleReport with
      id := "r1"
      status := Status.resolved
      resolvedAt := some (100 + 2 * 86400000) }

theorem resolvedSample_days : resolutionDays resolvedSample = 2 := by
  have h1 : resolutionDays resolvedSample =
      ⌊(172800000 : ℚ) / 86400000⌋ := by
    norm_num [resolutionDays, resolvedSample, sampleReport, finalizeReport,
      sampleDraft, msPerDay]
  rw [h1]
  norm_num

theorem avg_concrete : avgResolutionTime [sampleReport, resolvedSample] = 2 := by
  have hfil : List.filter
      (fun r => decide (r.status = Status.resolved ∧ r.resolvedAt.isSome = true))
      [sampleReport, resolvedSample] = [resolvedSample] := by decide
  have hcount : resolvedCount [sampleReport, resolvedSample] = 1 := by decide
  unfold avgResolutionTime
  simp only [hfil, hcount]
  norm_num [resolvedSample_days]

/-- C5 witness: on a concrete store holding one pending report and one
report resolved two days after creation, the code's average equals the
specified mean (and is 2 whole days), and the empty store averages 0. -/
theorem C5_witness :
    (avgResolutionTime [sampleReport, resolvedSample] =
      specAvgResolutionTime [sampleReport, resolvedSample] ∧
    avgResolutionTime [sampleReport, resolvedSample] = 2) ∧
    avgResolutionTime [] = 0 :=
  ⟨⟨(C5_avg_resolution_time [sampleReport, resolvedSample] (by decide)).1,
    avg_concrete⟩, (C5_avg_resolution_time [] (by decide)).2 rfl⟩
